import Mathlib

/-
Shallow embedding of the terraform-provider-incident sources:
  internal/provider/provider.go
  internal/provider/incident_catalog_type_resource.go
Terraform framework string attributes are tri-state (null / unknown / known
value); os.Getenv is modelled as a total function returning "" for unset
variables, exactly as Go does.  The generated REST client is an external
collaborator: its calls are modelled as explicit function parameters
returning either a transport error or a response (status code, raw body,
parsed success payload).
-/

namespace Incident

/-- Tri-state Terraform string attribute: null, unknown, or a known value,
mirroring types.String of the terraform-plugin-framework. -/
inductive TFString where
  | null
  | unknown
  | value (s : String)
  deriving DecidableEq, Repr

/-- types.String.ValueString(): returns the known value, or "" when the
attribute is null or unknown. -/
def TFString.valueString : TFString → String
  | .null => ""
  | .unknown => ""
  | .value s => s

/-- types.String.IsNull(). -/
def TFString.isNull : TFString → Bool
  | .null => true
  | _ => false

/-- types.String.IsUnknown(). -/
def TFString.isUnknown : TFString → Bool
  | .unknown => true
  | _ => false

/-- IncidentProviderModel from provider.go: the two provider attributes. -/
structure IncidentProviderModel where
  endpoint : TFString
  apiKey : TFString
  deriving DecidableEq, Repr

/-- Endpoint resolution from IncidentProvider.Configure (provider.go lines
81-88): a non-empty INCIDENT_ENDPOINT environment variable wins, else a
null-or-unknown config attribute falls back to the hardcoded default, else
the config value is used. -/
def resolveEndpoint (getenv : String → String) (data : IncidentProviderModel) : String :=
  let override := getenv "INCIDENT_ENDPOINT"
  if override ≠ "" then override
  else if data.endpoint.isNull || data.endpoint.isUnknown then "https://api.incident.io"
  else data.endpoint.valueString

/-- Credential resolution from IncidentProvider.Configure (provider.go lines
90-95): a null-or-unknown config attribute falls back to the
INCIDENT_API_KEY environment variable, else the config value is used. -/
def resolveAPIKey (getenv : String → String) (data : IncidentProviderModel) : String :=
  if data.apiKey.isNull || data.apiKey.isUnknown then getenv "INCIDENT_API_KEY"
  else data.apiKey.valueString

/-- Restatement of the claimed endpoint precedence in the words of the spec:
non-empty environment variable, else explicit non-null known config value,
else the hardcoded default.  Kept separate from resolveEndpoint so the two
can be compared. -/
def endpointSpec (getenv : String → String) (data : IncidentProviderModel) : String :=
  if getenv "INCIDENT_ENDPOINT" ≠ "" then getenv "INCIDENT_ENDPOINT"
  else
    match data.endpoint with
    | .value s => s
    | _ => "https://api.incident.io"

/-- Restatement of the claimed credential precedence in the words of the
spec: explicit non-null known config value, else the INCIDENT_API_KEY
environment variable. -/
def apiKeySpec (getenv : String → String) (data : IncidentProviderModel) : String :=
  match data.apiKey with
  | .value s => s
  | _ => getenv "INCIDENT_API_KEY"

/-- The bearer-token security provider built by
securityprovider.NewSecurityProviderBearerToken (external collaborator). -/
structure BearerTokenProvider where
  token : String
  deriving DecidableEq, Repr

/-- The generated API client, client.ClientWithResponses (external
collaborator); only its construction parameters matter here. -/
structure ClientWithResponses where
  endpoint : String
  deriving DecidableEq, Repr

/-- Modelled from the spec: the IncidentProviderData wrapper that
incident_catalog_type_resource.go type-asserts in Configure is not under
src/; per the fields the adapter reads, it carries the shared client and
the terraform version. -/
structure IncidentProviderData where
  client : ClientWithResponses
  terraformVersion : String
  deriving DecidableEq, Repr

/-- The dynamic type of the interface value that the provider stores in
resp.ResourceData and that each resource adapter receives in
req.ProviderData. -/
inductive ProviderData where
  | nil
  | rawClient (c : ClientWithResponses)
  | wrapped (d : IncidentProviderData)
  deriving DecidableEq, Repr

/-- Outcome of IncidentProvider.Configure after the config has been decoded:
either a Go panic (process abort) or a finished configuration carrying the
values assigned to resp.ResourceData and resp.DataSourceData. -/
inductive ConfigureOutcome where
  | panicked (msg : String)
  | configured (resourceData : ProviderData) (dataSourceData : ProviderData)
  deriving DecidableEq, Repr

/-- IncidentProvider.Configure (provider.go lines 81-123), with the two
fallible external constructors passed in explicitly.  A construction error
panics; on success the raw client pointer itself is stored in both
resp.DataSourceData and resp.ResourceData (lines 121-122). -/
def providerConfigure (getenv : String → String) (data : IncidentProviderModel)
    (newSecurityProviderBearerToken : String → Except String BearerTokenProvider)
    (newClientWithResponses : String → Except String ClientWithResponses) :
    ConfigureOutcome :=
  let endpoint := resolveEndpoint getenv data
  let apiKey := resolveAPIKey getenv data
  match newSecurityProviderBearerToken apiKey with
  | .error e => .panicked e
  | .ok _ =>
    match newClientWithResponses endpoint with
    | .error e => .panicked e
    | .ok c => .configured (.rawClient c) (.rawClient c)

/-- A user-visible diagnostic as added by resp.Diagnostics.AddError. -/
structure Diagnostic where
  summary : String
  detail : String
  deriving DecidableEq, Repr

/-- Result of a resource adapter Configure call: diagnostics added, plus the
client and terraform version stored into the adapter (none = left unset). -/
structure ResourceConfigureOutcome where
  diagnostics : List Diagnostic
  client : Option ClientWithResponses
  terraformVersion : Option String
  deriving DecidableEq, Repr

/-- IncidentCatalogTypeResource.Configure (resource file lines 79-96): nil
provider data is a no-op; the type assertion to IncidentProviderData either
succeeds and stores client and version, or fails and adds an error
diagnostic formatted with the dynamic type of the received value. -/
def catalogTypeConfigure (providerData : ProviderData) : ResourceConfigureOutcome :=
  match providerData with
  | .nil => ⟨[], none, none⟩
  | .wrapped d => ⟨[], some d.client, some d.terraformVersion⟩
  | .rawClient _ =>
    ⟨[⟨"Unexpected Resource Configure Type",
        "Expected *client.Client, got: *client.ClientWithResponses. Please report this issue to the provider developers."⟩],
      none, none⟩

/-- client.CatalogTypeV2: the API entity for a catalog type, as read from a
response body.  SourceRepoUrl is a nullable pointer. -/
structure CatalogTypeV2 where
  id : String
  name : String
  typeName : String
  description : String
  sourceRepoUrl : Option String
  deriving DecidableEq, Repr

/-- IncidentCatalogTypeResourceModel (resource file lines 28-34). -/
structure IncidentCatalogTypeResourceModel where
  id : TFString
  name : TFString
  typeName : TFString
  description : TFString
  sourceRepoURL : TFString
  deriving DecidableEq, Repr

/-- IncidentCatalogTypeResource.buildModel (resource file lines 204-215):
the zero value of types.String is the null string, so SourceRepoURL stays
null unless the entity carries a non-nil pointer. -/
def buildModel (catalogType : CatalogTypeV2) : IncidentCatalogTypeResourceModel :=
  let model : IncidentCatalogTypeResourceModel :=
    { id := .value catalogType.id
      name := .value catalogType.name
      typeName := .value catalogType.typeName
      description := .value catalogType.description
      sourceRepoURL := .null }
  match catalogType.sourceRepoUrl with
  | some u => { model with sourceRepoURL := .value u }
  | none => model

/-- client.CreateTypeRequestBody as populated by Create; the optional wire
fields are none when omitted from the request. -/
structure CreateTypeRequestBody where
  name : String
  description : String
  annotations : List (String × String)
  typeName : Option String
  sourceRepoUrl : Option String
  deriving DecidableEq, Repr

/-- Request-body construction from Create (resource file lines 105-117):
TypeName and SourceRepoUrl are attached only when the plan value, via
ValueString(), is non-empty. -/
def buildCreateRequestBody (terraformVersion : String)
    (data : IncidentCatalogTypeResourceModel) : CreateTypeRequestBody :=
  let base : CreateTypeRequestBody :=
    { name := data.name.valueString
      description := data.description.valueString
      annotations := [("incident.io/terraform/version", terraformVersion)]
      typeName := none
      sourceRepoUrl := none }
  let withTypeName :=
    if data.typeName.valueString ≠ "" then
      { base with typeName := some data.typeName.valueString }
    else base
  if data.sourceRepoURL.valueString ≠ "" then
    { withTypeName with sourceRepoUrl := some data.sourceRepoURL.valueString }
  else withTypeName

/-- client.CatalogV2UpdateTypeJSONRequestBody as populated by Update.  The
optional typeName slot models the wire-level field; the update builder in
the source never sets it (source comment: TypeName cannot be changed once
set). -/
structure UpdateTypeRequestBody where
  name : String
  description : String
  annotations : List (String × String)
  typeName : Option String
  sourceRepoUrl : Option String
  deriving DecidableEq, Repr

/-- Request-body construction from Update (resource file lines 160-171):
only Name, Description, Annotations and, when non-empty, SourceRepoUrl are
populated. -/
def buildUpdateRequestBody (terraformVersion : String)
    (data : IncidentCatalogTypeResourceModel) : UpdateTypeRequestBody :=
  let base : UpdateTypeRequestBody :=
    { name := data.name.valueString
      description := data.description.valueString
      annotations := [("incident.io/terraform/version", terraformVersion)]
      typeName := none
      sourceRepoUrl := none }
  if data.sourceRepoURL.valueString ≠ "" then
    { base with sourceRepoUrl := some data.sourceRepoURL.valueString }
  else base

/-- A transport-successful API response: StatusCode(), the raw Body, and the
parsed success payload (result.JSON201.CatalogType on Create,
result.JSON200.CatalogType on Read and Update). -/
structure APIResult where
  statusCode : Nat
  body : String
  entity : CatalogTypeV2
  deriving DecidableEq, Repr

/-- Outcome of one lifecycle operation: diagnostics added, and the model
written by resp.State.Set (none = State.Set never called, state untouched
for that resource). -/
structure OpResponse where
  diagnostics : List Diagnostic
  state : Option IncidentCatalogTypeResourceModel
  deriving DecidableEq, Repr

/-- IncidentCatalogTypeResource.Create (resource file lines 98-131), given a
successfully decoded plan and the API call as an explicit function.  A
transport error, or a status ≥ 400 whose body becomes the error text, adds
a diagnostic and returns before State.Set. -/
def catalogTypeCreate (terraformVersion : String)
    (plan : IncidentCatalogTypeResourceModel)
    (api : CreateTypeRequestBody → Except String APIResult) : OpResponse :=
  let requestBody := buildCreateRequestBody terraformVersion plan
  match api requestBody with
  | .error e =>
    ⟨[⟨"Client Error", "Unable to create catalog type, got error: " ++ e⟩], none⟩
  | .ok result =>
    if 400 ≤ result.statusCode then
      ⟨[⟨"Client Error", "Unable to create catalog type, got error: " ++ result.body⟩], none⟩
    else
      ⟨[], some (buildModel result.entity)⟩

/-- IncidentCatalogTypeResource.Read (resource file lines 133-151): the show
call is keyed by the ValueString of the id held in prior state. -/
def catalogTypeRead (state : IncidentCatalogTypeResourceModel)
    (api : String → Except String APIResult) : OpResponse :=
  match api state.id.valueString with
  | .error e =>
    ⟨[⟨"Client Error", "Unable to read catalog type, got error: " ++ e⟩], none⟩
  | .ok result =>
    if 400 ≤ result.statusCode then
      ⟨[⟨"Client Error", "Unable to read catalog type, got error: " ++ result.body⟩], none⟩
    else
      ⟨[], some (buildModel result.entity)⟩

/-- IncidentCatalogTypeResource.Update (resource file lines 153-184). -/
def catalogTypeUpdate (terraformVersion : String)
    (plan : IncidentCatalogTypeResourceModel)
    (api : String → UpdateTypeRequestBody → Except String APIResult) : OpResponse :=
  let requestBody := buildUpdateRequestBody terraformVersion plan
  match api plan.id.valueString requestBody with
  | .error e =>
    ⟨[⟨"Client Error", "Unable to update catalog type, got error: " ++ e⟩], none⟩
  | .ok result =>
    if 400 ≤ result.statusCode then
      ⟨[⟨"Client Error", "Unable to update catalog type, got error: " ++ result.body⟩], none⟩
    else
      ⟨[], some (buildModel result.entity)⟩

/-- IncidentCatalogTypeResource.Delete (resource file lines 186-198): the
destroy response value is discarded; only a transport error adds a
diagnostic, and the status code is never inspected. -/
def catalogTypeDelete (state : IncidentCatalogTypeResourceModel)
    (api : String → Except String APIResult) : OpResponse :=
  match api state.id.valueString with
  | .error e =>
    ⟨[⟨"Client Error", "Unable to delete catalog type, got error: " ++ e⟩], none⟩
  | .ok _ => ⟨[], none⟩

/-- IncidentCatalogTypeResource.ImportState (resource file lines 200-202):
resource.ImportStatePassthroughID writes the given identifier to the id
attribute and nothing else, so every other attribute is null. -/
def importStateModel (id : String) : IncidentCatalogTypeResourceModel :=
  { id := .value id
    name := .null
    typeName := .null
    description := .null
    sourceRepoURL := .null }

/-- Helper: buildModel always copies the entity identifier into the id
attribute as a known value. -/
theorem buildModel_id (e : CatalogTypeV2) : (buildModel e).id = .value e.id := by
  cases h : e.sourceRepoUrl <;> simp [buildModel, h]

/-- C4: provider Configure resolves the endpoint with precedence non-empty
INCIDENT_ENDPOINT environment variable, else explicit non-null known config
value, else the hardcoded default, and resolves the credential with
precedence explicit non-null known config value, else INCIDENT_API_KEY. -/
theorem claim4_configure_precedence (getenv : String → String)
    (data : IncidentProviderModel) :
    resolveEndpoint getenv data = endpointSpec getenv data ∧
    resolveAPIKey getenv data = apiKeySpec getenv data := by
  constructor
  · unfold resolveEndpoint endpointSpec
    cases h : data.endpoint <;>
      simp [h, TFString.isNull, TFString.isUnknown, TFString.valueString]
  · unfold resolveAPIKey apiKeySpec
    cases h : data.apiKey <;>
      simp [h, TFString.isNull, TFString.isUnknown, TFString.valueString]

/-- C5: whatever the plan model holds, the request body built for the update
API operation never carries the type_name field. -/
theorem claim5_update_never_sends_type_name (terraformVersion : String)
    (plan : IncidentCatalogTypeResourceModel) :
    (buildUpdateRequestBody terraformVersion plan).typeName = none := by
  unfold buildUpdateRequestBody
  by_cases h : plan.sourceRepoURL.valueString = "" <;> simp [h]

/-- C8: buildModel copies id, name, type_name and description from the
entity verbatim, and populates source_repo_url exactly when the entity
pointer is non-null, leaving it null otherwise. -/
theorem claim8_build_model_pure (e : CatalogTypeV2) :
    (buildModel e).id = .value e.id ∧
    (buildModel e).name = .value e.name ∧
    (buildModel e).typeName = .value e.typeName ∧
    (buildModel e).description = .value e.description ∧
    (buildModel e).sourceRepoURL =
      (match e.sourceRepoUrl with
        | some u => TFString.value u
        | none => TFString.null) := by
  cases h : e.sourceRepoUrl <;> simp [buildModel, h]

/-- C1 counterexample: Delete receives a transport-successful response with
HTTP status 404 and a non-empty raw body, yet adds no diagnostic at all, so
the claim that every lifecycle operation surfaces a status ≥ 400 body in a
diagnostic is false. -/
theorem claim1_counterexample :
    (catalogTypeDelete
        { id := .value "01GW2G3V0S59R238FAHPDS1R66", name := .value "Team",
          typeName := .value "CustomTeam", description := .value "Owning team",
          sourceRepoURL := .null }
        (fun _ => .ok
          { statusCode := 404, body := "catalog type not found",
            entity := { id := "", name := "", typeName := "", description := "",
                        sourceRepoUrl := none } })).diagnostics = [] := by
  rfl

/-- C1 (amended): for Create, Read and Update, a transport-successful
response with HTTP status ≥ 400 yields exactly one diagnostic whose detail
contains the raw response body; Delete never inspects the status code and
adds no diagnostic for such a response. -/
theorem claim1_status_error_diagnostics (terraformVersion : String)
    (plan : IncidentCatalogTypeResourceModel) (result : APIResult)
    (h : 400 ≤ result.statusCode) :
    (∃ pre, (catalogTypeCreate terraformVersion plan (fun _ => .ok result)).diagnostics
        = [⟨"Client Error", pre ++ result.body⟩]) ∧
    (∃ pre, (catalogTypeRead plan (fun _ => .ok result)).diagnostics
        = [⟨"Client Error", pre ++ result.body⟩]) ∧
    (∃ pre, (catalogTypeUpdate terraformVersion plan (fun _ _ => .ok result)).diagnostics
        = [⟨"Client Error", pre ++ result.body⟩]) ∧
    (catalogTypeDelete plan (fun _ => .ok result)).diagnostics = [] := by
  refine ⟨⟨"Unable to create catalog type, got error: ", ?_⟩,
    ⟨"Unable to read catalog type, got error: ", ?_⟩,
    ⟨"Unable to update catalog type, got error: ", ?_⟩, ?_⟩ <;>
  simp [catalogTypeCreate, catalogTypeRead, catalogTypeUpdate, catalogTypeDelete, h]

/-- C1 witness: the amended theorem applied to a concrete 500 response. -/
theorem claim1_status_error_diagnostics_witness :
    (∃ pre, (catalogTypeCreate "3.0.0"
        { id := .null, name := .value "Team", typeName := .null,
          description := .value "Owning team", sourceRepoURL := .null }
        (fun _ => .ok
          { statusCode := 500, body := "internal error",
            entity := { id := "", name := "", typeName := "", description := "",
                        sourceRepoUrl := none } })).diagnostics
        = [⟨"Client Error", pre ++ "internal error"⟩]) ∧
    (∃ pre, (catalogTypeRead
        { id := .null, name := .value "Team", typeName := .null,
          description := .value "Owning team", sourceRepoURL := .null }
        (fun _ => .ok
          { statusCode := 500, body := "internal error",
            entity := { id := "", name := "", typeName := "", description := "",
                        sourceRepoUrl := none } })).diagnostics
        = [⟨"Client Error", pre ++ "internal error"⟩]) ∧
    (∃ pre, (catalogTypeUpdate "3.0.0"
        { id := .null, name := .value "Team", typeName := .null,
          description := .value "Owning team", sourceRepoURL := .null }
        (fun _ _ => .ok
          { statusCode := 500, body := "internal error",
            entity := { id := "", name := "", typeName := "", description := "",
                        sourceRepoUrl := none } })).diagnostics
        = [⟨"Client Error", pre ++ "internal error"⟩]) ∧
    (catalogTypeDelete
        { id := .null, name := .value "Team", typeName := .null,
          description := .value "Owning team", sourceRepoURL := .null }
        (fun _ => .ok
          { statusCode := 500, body := "internal error",
            entity := { id := "", name := "", typeName := "", description := "",
                        sourceRepoUrl := none } })).diagnostics = [] :=
  claim1_status_error_diagnostics "3.0.0"
    { id := .null, name := .value "Team", typeName := .null,
      description := .value "Owning team", sourceRepoURL := .null }
    { statusCode := 500, body := "internal error",
      entity := { id := "", name := "", typeName := "", description := "",
                  sourceRepoUrl := none } }
    (by decide)

/-- C2: after a successful provider Configure, resp.ResourceData holds the
raw *client.ClientWithResponses (provider.go line 122), but the catalog
type adapter type-asserts *IncidentProviderData, so at this concrete input
its Configure rejects the provider data with an error diagnostic and never
stores the shared client. -/
theorem claim2_adapter_rejects_provider_data :
    providerConfigure (fun _ => "") ⟨.null, .null⟩
        (fun apiKey => .ok ⟨apiKey⟩) (fun endpoint => .ok ⟨endpoint⟩)
      = .configured (.rawClient ⟨"https://api.incident.io"⟩)
          (.rawClient ⟨"https://api.incident.io"⟩) ∧
    (catalogTypeConfigure (.rawClient ⟨"https://api.incident.io"⟩)).client = none ∧
    (catalogTypeConfigure (.rawClient ⟨"https://api.incident.io"⟩)).diagnostics
      = [⟨"Unexpected Resource Configure Type",
          "Expected *client.Client, got: *client.ClientWithResponses. Please report this issue to the provider developers."⟩] := by
  exact ⟨rfl, rfl, rfl⟩

/-- C3: on a transport error or an HTTP status ≥ 400 response, Create, Read
and Update each add a diagnostic and return without ever calling State.Set,
leaving the Terraform state untouched for the resource. -/
theorem claim3_error_aborts_before_state_write (terraformVersion : String)
    (plan : IncidentCatalogTypeResourceModel) (msg : String) (result : APIResult)
    (h : 400 ≤ result.statusCode) :
    ((catalogTypeCreate terraformVersion plan (fun _ => .error msg)).state = none ∧
      (catalogTypeCreate terraformVersion plan (fun _ => .error msg)).diagnostics ≠ []) ∧
    ((catalogTypeCreate terraformVersion plan (fun _ => .ok result)).state = none ∧
      (catalogTypeCreate terraformVersion plan (fun _ => .ok result)).diagnostics ≠ []) ∧
    ((catalogTypeRead plan (fun _ => .error msg)).state = none ∧
      (catalogTypeRead plan (fun _ => .error msg)).diagnostics ≠ []) ∧
    ((catalogTypeRead plan (fun _ => .ok result)).state = none ∧
      (catalogTypeRead plan (fun _ => .ok result)).diagnostics ≠ []) ∧
    ((catalogTypeUpdate terraformVersion plan (fun _ _ => .error msg)).state = none ∧
      (catalogTypeUpdate terraformVersion plan (fun _ _ => .error msg)).diagnostics ≠ []) ∧
    ((catalogTypeUpdate terraformVersion plan (fun _ _ => .ok result)).state = none ∧
      (catalogTypeUpdate terraformVersion plan (fun _ _ => .ok result)).diagnostics ≠ []) := by
  refine ⟨⟨?_, ?_⟩, ⟨?_, ?_⟩, ⟨?_, ?_⟩, ⟨?_, ?_⟩, ⟨?_, ?_⟩, ⟨?_, ?_⟩⟩ <;>
  simp [catalogTypeCreate, catalogTypeRead, catalogTypeUpdate, h]

/-- C3 witness: the theorem applied to a concrete transport error and a
concrete 422 response. -/
theorem claim3_error_aborts_before_state_write_witness :
    ((catalogTypeCreate "3.0.0"
        { id := .null, name := .value "Team", typeName := .null,
          description := .value "d", sourceRepoURL := .null }
        (fun _ => .error "connection refused")).state = none ∧
      (catalogTypeCreate "3.0.0"
        { id := .null, name := .value "Team", typeName := .null,
          description := .value "d", sourceRepoURL := .null }
        (fun _ => .error "connection refused")).diagnostics ≠ []) ∧
    ((catalogTypeCreate "3.0.0"
        { id := .null, name := .value "Team", typeName := .null,
          description := .value "d", sourceRepoURL := .null }
        (fun _ => .ok
          { statusCode := 422, body := "validation failed",
            entity := { id := "", name := "", typeName := "", description := "",
                        sourceRepoUrl := none } })).state = none ∧
      (catalogTypeCreate "3.0.0"
        { id := .null, name := .value "Team", typeName := .null,
          description := .value "d", sourceRepoURL := .null }
        (fun _ => .ok
          { statusCode := 422, body := "validation failed",
            entity := { id := "", name := "", typeName := "", description := "",
                        sourceRepoUrl := none } })).diagnostics ≠ []) ∧
    ((catalogTypeRead
        { id := .null, name := .value "Team", typeName := .null,
          description := .value "d", sourceRepoURL := .null }
        (fun _ => .error "connection refused")).state = none ∧
      (catalogTypeRead
        { id := .null, name := .value "Team", typeName := .null,
          description := .value "d", sourceRepoURL := .null }
        (fun _ => .error "connection refused")).diagnostics ≠ []) ∧
    ((catalogTypeRead
        { id := .null, name := .value "Team", typeName := .null,
          description := .value "d", sourceRepoURL := .null }
        (fun _ => .ok
          { statusCode := 422, body := "validation failed",
            entity := { id := "", name := "", typeName := "", description := "",
                        sourceRepoUrl := none } })).state = none ∧
      (catalogTypeRead
        { id := .null, name := .value "Team", typeName := .null,
          description := .value "d", sourceRepoURL := .null }
        (fun _ => .ok
          { statusCode := 422, body := "validation failed",
            entity := { id := "", name := "", typeName := "", description := "",
                        sourceRepoUrl := none } })).diagnostics ≠ []) ∧
    ((catalogTypeUpdate "3.0.0"
        { id := .null, name := .value "Team", typeName := .null,
          description := .value "d", sourceRepoURL := .null }
        (fun _ _ => .error "connection refused")).state = none ∧
      (catalogTypeUpdate "3.0.0"
        { id := .null, name := .value "Team", typeName := .null,
          description := .value "d", sourceRepoURL := .null }
        (fun _ _ => .error "connection refused")).diagnostics ≠ []) ∧
    ((catalogTypeUpdate "3.0.0"
        { id := .null, name := .value "Team", typeName := .null,
          description := .value "d", sourceRepoURL := .null }
        (fun _ _ => .ok
          { statusCode := 422, body := "validation failed",
            entity := { id := "", name := "", typeName := "", description := "",
                        sourceRepoUrl := none } })).state = none ∧
      (catalogTypeUpdate "3.0.0"
        { id := .null, name := .value "Team", typeName := .null,
          description := .value "d", sourceRepoURL := .null }
        (fun _ _ => .ok
          { statusCode := 422, body := "validation failed",
            entity := { id := "", name := "", typeName := "", description := "",
                        sourceRepoUrl := none } })).diagnostics ≠ []) :=
  claim3_error_aborts_before_state_write "3.0.0"
    { id := .null, name := .value "Team", typeName := .null,
      description := .value "d", sourceRepoURL := .null }
    "connection refused"
    { statusCode := 422, body := "validation failed",
      entity := { id := "", name := "", typeName := "", description := "",
                  sourceRepoUrl := none } }
    (by decide)

/-- C6: when a Create succeeds and a Read immediately after receives the
same entity the Create response carried, the model Read writes to state is
the model Create wrote (hence equal on every field, in particular on all
fields other than the server-computed ones). -/
theorem claim6_create_read_same_model (terraformVersion : String)
    (plan prior : IncidentCatalogTypeResourceModel) (r1 r2 : APIResult)
    (h1 : r1.statusCode < 400) (h2 : r2.statusCode < 400)
    (he : r1.entity = r2.entity) :
    (catalogTypeCreate terraformVersion plan (fun _ => .ok r1)).state
      = (catalogTypeRead prior (fun _ => .ok r2)).state := by
  simp [catalogTypeCreate, catalogTypeRead, Nat.not_le.mpr h1, Nat.not_le.mpr h2, he]

/-- C6 witness: the theorem applied to a concrete created-then-shown
entity. -/
theorem claim6_create_read_same_model_witness :
    (catalogTypeCreate "3.0.0"
        { id := .null, name := .value "Team", typeName := .null,
          description := .value "Owning team", sourceRepoURL := .null }
        (fun _ => .ok
          { statusCode := 201, body := "",
            entity := { id := "01GW2G3V0S59R238FAHPDS1R66", name := "Team",
                        typeName := "CustomTeam", description := "Owning team",
                        sourceRepoUrl := none } })).state
      = (catalogTypeRead
          { id := .value "01GW2G3V0S59R238FAHPDS1R66", name := .value "Team",
            typeName := .value "CustomTeam", description := .value "Owning team",
            sourceRepoURL := .null }
          (fun _ => .ok
            { statusCode := 200, body := "",
              entity := { id := "01GW2G3V0S59R238FAHPDS1R66", name := "Team",
                          typeName := "CustomTeam", description := "Owning team",
                          sourceRepoUrl := none } })).state :=
  claim6_create_read_same_model "3.0.0"
    { id := .null, name := .value "Team", typeName := .null,
      description := .value "Owning team", sourceRepoURL := .null }
    { id := .value "01GW2G3V0S59R238FAHPDS1R66", name := .value "Team",
      typeName := .value "CustomTeam", description := .value "Owning team",
      sourceRepoURL := .null }
    { statusCode := 201, body := "",
      entity := { id := "01GW2G3V0S59R238FAHPDS1R66", name := "Team",
                  typeName := "CustomTeam", description := "Owning team",
                  sourceRepoUrl := none } }
    { statusCode := 200, body := "",
      entity := { id := "01GW2G3V0S59R238FAHPDS1R66", name := "Team",
                  typeName := "CustomTeam", description := "Owning team",
                  sourceRepoUrl := none } }
    (by decide) (by decide) rfl

/-- C7: ImportState seeds only the id attribute; a subsequent Read from the
imported state is keyed by exactly that identifier, so against the same API
responses it produces the same outcome as a Read from the state a Create of
entity e wrote. -/
theorem claim7_import_then_read (s : String) (e : CatalogTypeV2)
    (api : String → Except String APIResult) :
    importStateModel s =
      { id := .value s, name := .null, typeName := .null,
        description := .null, sourceRepoURL := .null } ∧
    catalogTypeRead (importStateModel e.id) api = catalogTypeRead (buildModel e) api := by
  refine ⟨rfl, ?_⟩
  have h1 : (importStateModel e.id).id.valueString = e.id := rfl
  have h2 : (buildModel e).id.valueString = e.id := by
    rw [buildModel_id]
    rfl
  simp only [catalogTypeRead, h1, h2]

/-- C9: if bearer-token-provider construction fails, or it succeeds and
client construction fails, provider Configure panics with that error rather
than finishing with any configured outcome. -/
theorem claim9_construction_failure_panics (getenv : String → String)
    (data : IncidentProviderModel)
    (newBearer : String → Except String BearerTokenProvider)
    (newClient : String → Except String ClientWithResponses) (e : String) :
    (newBearer (resolveAPIKey getenv data) = .error e →
      providerConfigure getenv data newBearer newClient = .panicked e) ∧
    (∀ b, newBearer (resolveAPIKey getenv data) = .ok b →
      newClient (resolveEndpoint getenv data) = .error e →
      providerConfigure getenv data newBearer newClient = .panicked e) := by
  constructor
  · intro hb
    simp [providerConfigure, hb]
  · intro b hb hc
    simp [providerConfigure, hb, hc]

/-- C9 witness: the theorem applied to a failing bearer-token constructor
and, separately, to a failing client constructor. -/
theorem claim9_construction_failure_panics_witness :
    providerConfigure (fun _ => "") ⟨.null, .null⟩
        (fun _ => .error "boom") (fun s => .ok ⟨s⟩) = .panicked "boom" ∧
    providerConfigure (fun _ => "") ⟨.null, .null⟩
        (fun _ => .ok ⟨""⟩) (fun _ => .error "dial tcp: no such host")
      = .panicked "dial tcp: no such host" :=
  ⟨(claim9_construction_failure_panics (fun _ => "") ⟨.null, .null⟩
      (fun _ => .error "boom") (fun s => .ok ⟨s⟩) "boom").1 rfl,
    (claim9_construction_failure_panics (fun _ => "") ⟨.null, .null⟩
      (fun _ => .ok ⟨""⟩) (fun _ => .error "dial tcp: no such host")
      "dial tcp: no such host").2 ⟨""⟩ rfl rfl⟩

/-- Helper: the type_name sent on Create is the plan value when that value
is non-empty, and absent otherwise. -/
theorem buildCreateRequestBody_typeName (terraformVersion : String)
    (data : IncidentCatalogTypeResourceModel) :
    (buildCreateRequestBody terraformVersion data).typeName =
      if data.typeName.valueString = "" then none
      else some data.typeName.valueString := by
  unfold buildCreateRequestBody
  by_cases h1 : data.typeName.valueString = "" <;>
    by_cases h2 : data.sourceRepoURL.valueString = "" <;> simp [h1, h2]

/-- Helper: the source_repo_url sent on Create is the plan value when that
value is non-empty, and absent otherwise. -/
theorem buildCreateRequestBody_sourceRepoUrl (terraformVersion : String)
    (data : IncidentCatalogTypeResourceModel) :
    (buildCreateRequestBody terraformVersion data).sourceRepoUrl =
      if data.sourceRepoURL.valueString = "" then none
      else some data.sourceRepoURL.valueString := by
  unfold buildCreateRequestBody
  by_cases h1 : data.typeName.valueString = "" <;>
    by_cases h2 : data.sourceRepoURL.valueString = "" <;> simp [h1, h2]

/-- Helper: the source_repo_url sent on Update is the plan value when that
value is non-empty, and absent otherwise. -/
theorem buildUpdateRequestBody_sourceRepoUrl (terraformVersion : String)
    (data : IncidentCatalogTypeResourceModel) :
    (buildUpdateRequestBody terraformVersion data).sourceRepoUrl =
      if data.sourceRepoURL.valueString = "" then none
      else some data.sourceRepoURL.valueString := by
  unfold buildUpdateRequestBody
  by_cases h : data.sourceRepoURL.valueString = "" <;> simp [h]

/-- Helper: the omitted-unless-non-empty pattern characterised as an iff
over the tri-state attribute. -/
theorem optional_field_sent_iff (t : TFString) (s : String) :
    (if t.valueString = "" then none else some t.valueString) = some s ↔
      t = .value s ∧ s ≠ "" := by
  constructor
  · intro h
    by_cases he : t.valueString = ""
    · simp [he] at h
    · rw [if_neg he] at h
      have hv : t.valueString = s := Option.some.inj h
      cases t with
      | null => exact absurd rfl he
      | unknown => exact absurd rfl he
      | value v =>
        refine ⟨?_, ?_⟩
        · rw [show v = s from hv]
        · rw [← hv]
          exact he
  · rintro ⟨ht, hs⟩
    subst ht
    rw [if_neg ?_]
    · rfl
    · exact hs

/-- C10: an optional string field (type_name on Create, source_repo_url on
Create and Update) appears in the API request body exactly when its plan
value is a known non-empty string: a null, unknown or explicitly empty
attribute is omitted. -/
theorem claim10_optional_fields_sent_iff_nonempty (terraformVersion : String)
    (data : IncidentCatalogTypeResourceModel) (s : String) :
    ((buildCreateRequestBody terraformVersion data).typeName = some s ↔
      data.typeName = .value s ∧ s ≠ "") ∧
    ((buildCreateRequestBody terraformVersion data).sourceRepoUrl = some s ↔
      data.sourceRepoURL = .value s ∧ s ≠ "") ∧
    ((buildUpdateRequestBody terraformVersion data).sourceRepoUrl = some s ↔
      data.sourceRepoURL = .value s ∧ s ≠ "") := by
  refine ⟨?_, ?_, ?_⟩
  · rw [buildCreateRequestBody_typeName]
    exact optional_field_sent_iff data.typeName s
  · rw [buildCreateRequestBody_sourceRepoUrl]
    exact optional_field_sent_iff data.sourceRepoURL s
  · rw [buildUpdateRequestBody_sourceRepoUrl]
    exact optional_field_sent_iff data.sourceRepoURL s

end Incident
